import Mathlib

/-!
Shallow embedding of the persistence layer of a desktop library-management
application (`src/evanjo/database.py`) and proofs about its borrow/return
lifecycle, authentication operations, settings and audit trail.

Modelling conventions:
* The SQLite tables become lists of row structures inside a `State` record;
  `AUTOINCREMENT` primary keys become explicit `next…Id` counters.
* `datetime.now()` is an ambient effect in the source; every operation that
  reads the clock takes an explicit `now : DateTime` argument.
* Timestamps are stored as ISO-8601 text in the source and round-trip exactly
  through `datetime.fromisoformat`, so the embedding stores `DateTime` values
  directly.
* `bcrypt.gensalt()` is an ambient effect; operations that hash take an
  explicit `salt : Nat`.  A bcrypt hash is modelled by the pair of hashed
  password and salt, with `checkpw p (hashpw q s) = (p == q)` — the functional
  contract of a salted one-way verify.
* SQLite `REAL` amounts are modelled in `ℚ`; every monetary constant that
  occurs in the program (`0.50`, `0.75`, day counts) is dyadic, where IEEE
  doubles are exact.
-/

namespace Evanjo

/-- A timestamp: a calendar day (days from an arbitrary epoch) plus seconds
within the day.  `d.day` plays the role of `d.date()` in the source. -/
structure DateTime where
  day : Int
  secs : Nat
deriving DecidableEq, Repr

/-- `datetime + timedelta(days=n)`. -/
def DateTime.addDays (d : DateTime) (n : Int) : DateTime :=
  { d with day := d.day + n }

/-- `(d1.date() - d2.date()).days`: calendar-date subtraction, ignoring the
time-of-day parts. -/
def dateDiffDays (d1 d2 : DateTime) : Int :=
  d1.day - d2.day

/-- Model of a bcrypt hash: the hashed password together with its salt. -/
structure BCryptHash where
  password : String
  salt : Nat
deriving DecidableEq, Repr

/-- `bcrypt.hashpw(password, salt)`. -/
def hashpw (password : String) (salt : Nat) : BCryptHash :=
  ⟨password, salt⟩

/-- `bcrypt.checkpw(candidate, hash)`: succeeds exactly when the candidate
equals the password the hash was produced from. -/
def checkpw (candidate : String) (h : BCryptHash) : Bool :=
  h.password == candidate

/-- A row of the `books` table.  `available` is stored as `INTEGER` 0/1 in the
schema; only those two values ever occur, so it is a `Bool` here. -/
structure Book where
  id : Nat
  title : String
  author : Option String
  category : Option String
  isbn : Option String
  available : Bool
deriving DecidableEq, Repr

/-- A row of the `members` table. -/
structure Member where
  id : Nat
  name : String
  email : Option String
deriving DecidableEq, Repr

/-- A row of the `loans` table.  `date_returned` is `NULL` (= `none`) exactly
while the loan is open; `late_fee` has SQL default 0. -/
structure Loan where
  id : Nat
  book_id : Nat
  member_id : Nat
  date_borrowed : DateTime
  date_due : DateTime
  date_returned : Option DateTime
  late_fee : ℚ
deriving DecidableEq, Repr

/-- A row of the `users` table; `username` carries a UNIQUE constraint. -/
structure User where
  id : Nat
  username : String
  password_hash : BCryptHash
  role : String
deriving DecidableEq, Repr

/-- A row of the append-only `audit_log` table. -/
structure AuditEntry where
  id : Nat
  actor : String
  action : String
  details : String
  created_at : DateTime
deriving DecidableEq, Repr

/-- The whole database.  The `settings` table is a key/value list with
`key` as primary key. -/
structure State where
  books : List Book
  members : List Member
  loans : List Loan
  users : List User
  settings : List (String × String)
  audit : List AuditEntry
  nextBookId : Nat
  nextMemberId : Nat
  nextLoanId : Nat
  nextUserId : Nat
  nextAuditId : Nat
deriving DecidableEq, Repr

/-- The `{"success": ..., "message": ...}` dictionaries the operations
return. -/
structure Result where
  success : Bool
  message : String
deriving DecidableEq, Repr

/-- The dictionary returned by `return_book`, which additionally carries the
computed `late_fee` on success. -/
structure ReturnResult where
  success : Bool
  message : String
  late_fee : Option ℚ
deriving DecidableEq, Repr

/-- Python `actor or "unknown"`: both `None` and the empty string are falsy. -/
def orUnknown (actor : Option String) : String :=
  match actor with
  | none => "unknown"
  | some a => if a = "" then "unknown" else a

/-- `log_audit(actor, action, details)`: append one row with a fresh id and
the current timestamp. -/
def log_audit (s : State) (actor action details : String) (now : DateTime) : State :=
  { s with
    audit := s.audit ++ [⟨s.nextAuditId, actor, action, details, now⟩]
    nextAuditId := s.nextAuditId + 1 }

/-- `get_setting(key)`: `SELECT value FROM settings WHERE key=?`, `None` when
absent. -/
def get_setting (s : State) (key : String) : Option String :=
  (s.settings.find? (fun p => p.1 == key)).map (fun p => p.2)

/-- `INSERT OR REPLACE` on the `settings` table keyed by `key`. -/
def upsertSetting (settings : List (String × String)) (key value : String) :
    List (String × String) :=
  if settings.any (fun p => p.1 == key) then
    settings.map (fun p => if p.1 == key then (key, value) else p)
  else
    settings ++ [(key, value)]

/-- `set_setting(key, value, actor)`: upsert, then audit.  The source converts
the value with `str(...)`; callers pass strings already. -/
def set_setting (s : State) (key value : String) (actor : Option String)
    (now : DateTime) : State :=
  log_audit { s with settings := upsertSetting s.settings key value }
    (orUnknown actor) "set_setting" (key ++ "=" ++ value) now

/-- Numeric value of a digit string. -/
def digitsVal (cs : List Char) : Nat :=
  cs.foldl (fun a c => a * 10 + (c.toNat - 48)) 0

/-- Python whitespace as stripped by `float()`. -/
def isPySpace (c : Char) : Bool :=
  c == ' ' || c == '\t' || c == '\n' || c == '\r' || c == '\x0b' || c == '\x0c'

/-- Strip leading and trailing whitespace from a character list. -/
def pyStrip (cs : List Char) : List Char :=
  ((cs.dropWhile isPySpace).reverse.dropWhile isPySpace).reverse

/-- `10 ^ n` as a natural number (kept in `Nat` so that it evaluates by
`Nat.pow`). -/
def pow10 (n : Nat) : Nat := 10 ^ n

/-- The rational `sgn * (mant / den) * 10 ^ e`, assembled with `mkRat` so
that it evaluates by integer arithmetic. -/
def ratOfParts (sgn : Int) (mant den : Nat) (e : Int) : ℚ :=
  if 0 ≤ e then mkRat (sgn * ((mant * pow10 e.toNat : Nat) : Int)) den
  else mkRat (sgn * (mant : Int)) (den * pow10 (-e).toNat)

/-- Exponent part of a float literal, after the `e`/`E`. -/
def parseExpPart (cs : List Char) : Option Int :=
  let (sgn, cs) :=
    match cs with
    | '-' :: r => ((-1 : Int), r)
    | '+' :: r => ((1 : Int), r)
    | _ => ((1 : Int), cs)
  let ds := cs.takeWhile Char.isDigit
  let rest := cs.dropWhile Char.isDigit
  if ds.isEmpty || !rest.isEmpty then none else some (sgn * (digitsVal ds : Int))

/-- Mantissa continuation of `parseFloat` once the integer digits are read:
`cs` is what follows them, `ip` are the integer digits, `sgn` the sign. -/
def parseFloatRest (sgn : Int) (ip : List Char) (cs : List Char) : Option ℚ :=
  match cs with
  | [] => if ip.isEmpty then none else some (ratOfParts sgn (digitsVal ip) 1 0)
  | '.' :: r =>
    let fp := r.takeWhile Char.isDigit
    let rest := r.dropWhile Char.isDigit
    if ip.isEmpty && fp.isEmpty then none
    else
      let mant := digitsVal ip * pow10 fp.length + digitsVal fp
      let den := pow10 fp.length
      match rest with
      | [] => some (ratOfParts sgn mant den 0)
      | 'e' :: er => (parseExpPart er).map (fun e => ratOfParts sgn mant den e)
      | 'E' :: er => (parseExpPart er).map (fun e => ratOfParts sgn mant den e)
      | _ => none
  | 'e' :: er =>
    if ip.isEmpty then none
    else (parseExpPart er).map (fun e => ratOfParts sgn (digitsVal ip) 1 e)
  | 'E' :: er =>
    if ip.isEmpty then none
    else (parseExpPart er).map (fun e => ratOfParts sgn (digitsVal ip) 1 e)
  | _ => none

/-- Python `float(s)` on decimal literals: optional surrounding whitespace,
optional sign, digits with an optional fractional part and an optional
decimal exponent; `none` models the `ValueError` that `return_book` catches.
(`inf`/`nan` spellings and digit-group underscores are accepted by Python but
never used by this program and are not modelled.)  The value is the exact
rational denoted by the literal. -/
def parseFloat (s : String) : Option ℚ :=
  let cs := pyStrip s.toList
  let (sgn, cs) :=
    match cs with
    | '-' :: r => ((-1 : Int), r)
    | '+' :: r => ((1 : Int), r)
    | _ => ((1 : Int), cs)
  parseFloatRest sgn (cs.takeWhile Char.isDigit) (cs.dropWhile Char.isDigit)

/-- `float(get_setting("late_fee_per_day"))` with the source's
`except: late_fee_per_day = 0.50` fallback: `float(None)` raises, as does an
unparsable string, so both cases fall back to `1/2`. -/
def lateFeeRate (s : State) : ℚ :=
  (((get_setting s "late_fee_per_day").bind parseFloat)).getD (1 / 2)

/-- `create_user(username, password_plain, role)` (Python default
`role="admin"`): hash with a fresh salt, `INSERT INTO users`, then audit.
The UNIQUE constraint on `username` makes a duplicate insert raise
`IntegrityError`, modelled as `none`; note the audit actor is the created
username — the function has no caller parameter. -/
def create_user (s : State) (username password_plain role : String)
    (salt : Nat) (now : DateTime) : Option State :=
  if s.users.any (fun u => u.username == username) then none
  else
    let hashed := hashpw password_plain salt
    let s1 := { s with
      users := s.users ++ [⟨s.nextUserId, username, hashed, role⟩]
      nextUserId := s.nextUserId + 1 }
    some (log_audit s1 username "create_user"
      ("created user " ++ username ++ " with role " ++ role) now)

/-- `verify_user(username, password_plain)`: fetch the row, `False` when it is
missing, otherwise `bcrypt.checkpw` (whose exceptions the source also turns
into `False`).  Always a plain boolean, never an error. -/
def verify_user (s : State) (username password_plain : String) : Bool :=
  match s.users.find? (fun u => u.username == username) with
  | none => false
  | some row => checkpw password_plain row.password_hash

/-- `change_user_password(username, old, new)`: reject (state untouched) when
the old password does not verify; otherwise rehash, `UPDATE users ... WHERE
username=?`, audit, success. -/
def change_user_password (s : State)
    (username old_password_plain new_password_plain : String)
    (salt : Nat) (now : DateTime) : Result × State :=
  if !verify_user s username old_password_plain then
    ({ success := false, message := "Current password incorrect." }, s)
  else
    let hashed := hashpw new_password_plain salt
    let s1 := { s with
      users := s.users.map (fun u =>
        if u.username == username then { u with password_hash := hashed } else u) }
    let s2 := log_audit s1 username "change_password"
      ("user " ++ username ++ " changed their password") now
    ({ success := true, message := "Password changed." }, s2)

/-- `admin_reset_password(admin_username, target_username, new)`:
unconditional `UPDATE users ... WHERE username=?` (zero rows when the target
does not exist), audit, then an unconditional success result. -/
def admin_reset_password (s : State)
    (admin_username target_username new_password_plain : String)
    (salt : Nat) (now : DateTime) : Result × State :=
  let hashed := hashpw new_password_plain salt
  let s1 := { s with
    users := s.users.map (fun u =>
      if u.username == target_username then { u with password_hash := hashed } else u) }
  let s2 := log_audit s1 admin_username "admin_reset_password"
    ("admin " ++ admin_username ++ " reset password for " ++ target_username) now
  ({ success := true, message := "Password for " ++ target_username ++ " reset." }, s2)

/-- The open loans referencing a book:
`SELECT * FROM loans WHERE book_id=? AND date_returned IS NULL`. -/
def openLoansFor (s : State) (bookId : Nat) : List Loan :=
  s.loans.filter (fun l => l.book_id == bookId && l.date_returned.isNone)

/-- `delete_book(book_id, actor)`: refuse while the open-loan count for the
book is positive; otherwise read the title for the audit line, `DELETE FROM
books WHERE id=?`, audit, success. -/
def delete_book (s : State) (book_id : Nat) (actor : Option String)
    (now : DateTime) : Result × State :=
  if (openLoansFor s book_id).length > 0 then
    ({ success := false,
       message := "Cannot delete: book has active (not returned) loans." }, s)
  else
    let title :=
      match s.books.find? (fun b => b.id == book_id) with
      | some b => b.title
      | none => "id:" ++ toString book_id
    let s1 := { s with books := s.books.filter (fun b => !(b.id == book_id)) }
    let s2 := log_audit s1 (orUnknown actor) "delete_book" title now
    ({ success := true, message := "Book deleted." }, s2)

/-- `borrow_book(book_id, member_id, days_due, actor)` (Python default
`days_due=14`): look the book up, fail on a missing row or `available == 0`;
otherwise insert an open loan due `days_due` days from now, flip the book to
unavailable, audit, success.  (The audit/result lines render `due.date()`;
the day number stands in for the printed calendar date.) -/
def borrow_book (s : State) (book_id member_id : Nat) (days_due : Int)
    (now : DateTime) (actor : Option String) : Result × State :=
  match s.books.find? (fun b => b.id == book_id) with
  | none => ({ success := false, message := "Book not found." }, s)
  | some b =>
    if b.available = false then
      ({ success := false, message := "Book currently not available." }, s)
    else
      let due := now.addDays days_due
      let loan : Loan := ⟨s.nextLoanId, book_id, member_id, now, due, none, 0⟩
      let s1 := { s with
        loans := s.loans ++ [loan]
        nextLoanId := s.nextLoanId + 1
        books := s.books.map (fun bk =>
          if bk.id == book_id then { bk with available := false } else bk) }
      let s2 := log_audit s1 (orUnknown actor) "borrow_book"
        ("book:" ++ toString book_id ++ " member:" ++ toString member_id ++
          " due:" ++ toString due.day) now
      ({ success := true,
         message := "Borrowed successfully; due on " ++ toString due.day }, s2)

/-- `return_book(loan_id, actor)`: look the loan up, fail on a missing row or
a truthy `date_returned`; otherwise read the late-fee rate from settings
(with the 0.50 fallback), charge `late_days * rate` when the calendar-day
difference is positive and 0 otherwise, close the loan, flip its book back to
available, audit, and surface the fee.  (The audit/result lines render the
float fee; `toString` of the rational stands in for that rendering.) -/
def return_book (s : State) (loan_id : Nat) (now : DateTime)
    (actor : Option String) : ReturnResult × State :=
  match s.loans.find? (fun l => l.id == loan_id) with
  | none => ({ success := false, message := "Loan not found.", late_fee := none }, s)
  | some loan =>
    if loan.date_returned.isSome then
      ({ success := false, message := "Already returned.", late_fee := none }, s)
    else
      let late_fee_per_day := lateFeeRate s
      let late_days := dateDiffDays now loan.date_due
      let late_fee : ℚ :=
        if late_days > 0 then (late_days : ℚ) * late_fee_per_day else 0
      let s1 := { s with
        loans := s.loans.map (fun l =>
          if l.id == loan_id then
            { l with date_returned := some now, late_fee := late_fee }
          else l)
        books := s.books.map (fun bk =>
          if bk.id == loan.book_id then { bk with available := true } else bk) }
      let s2 := log_audit s1 (orUnknown actor) "return_book"
        ("loan:" ++ toString loan_id ++ " late_fee:" ++ toString late_fee) now
      ({ success := true,
         message := "Returned. Late fee: " ++ toString late_fee,
         late_fee := some late_fee }, s2)

/-- One step of the loan lifecycle: the two operations the borrow/return
invariant quantifies over, with their clock and actor inputs. -/
inductive LoanOp where
  | borrow (book_id member_id : Nat) (days_due : Int) (now : DateTime)
      (actor : Option String)
  | ret (loan_id : Nat) (now : DateTime) (actor : Option String)

/-- Run one lifecycle operation, keeping only the database state. -/
def applyLoanOp (s : State) : LoanOp → State
  | .borrow b m d now a => (borrow_book s b m d now a).2
  | .ret l now a => (return_book s l now a).2

/-- Run a sequence of borrow/return operations. -/
def runLoanOps (s : State) (ops : List LoanOp) : State :=
  ops.foldl applyLoanOp s

/-- The book/loan consistency invariant of the spec: a book is unavailable
exactly when an open loan references it, and at most one open loan references
any book. -/
def BookInvariant (s : State) : Prop :=
  ∀ b ∈ s.books,
    ((b.available = false) ↔ openLoansFor s b.id ≠ []) ∧
    (openLoansFor s b.id).length ≤ 1

/-- Schema well-formedness that SQLite enforces on every reachable database:
primary keys are unique, and the `AUTOINCREMENT` counter is ahead of every
stored loan id. -/
def WF (s : State) : Prop :=
  (s.books.map Book.id).Nodup ∧
  (s.loans.map Loan.id).Nodup ∧
  ∀ l ∈ s.loans, l.id < s.nextLoanId

instance (s : State) : Decidable (BookInvariant s) := by
  unfold BookInvariant
  infer_instance

instance (s : State) : Decidable (WF s) := by
  unfold WF
  infer_instance

/-! Concrete fixture databases used to exercise the theorems on closed
inputs. -/

/-- A sample clock value, day 90. -/
def t0 : DateTime := ⟨90, 0⟩

/-- A later clock value, 20 days after `t0`. -/
def t1 : DateTime := ⟨110, 0⟩

/-- Due date used by the sample loan: day 100, one hour into the day. -/
def dueT : DateTime := ⟨100, 3600⟩

/-- An open sample loan (id 1) on book 1 by member 1, due on day 100. -/
def loan1 : Loan := ⟨1, 1, 1, t0, dueT, none, 0⟩

/-- A database with one available book and no loans. -/
def s0 : State where
  books := [⟨1, "Dune", none, none, none, true⟩]
  members := [⟨1, "Ada", none⟩]
  loans := []
  users := []
  settings := [("late_fee_per_day", "0.50")]
  audit := []
  nextBookId := 2
  nextMemberId := 2
  nextLoanId := 1
  nextUserId := 1
  nextAuditId := 1

/-- A borrow of book 1 followed by the return of the resulting loan. -/
def ops0 : List LoanOp :=
  [.borrow 1 1 14 t0 (some "staff1"), .ret 1 t1 (some "staff1")]

/-- The final state of `ops0` run from `s0`. -/
def sF : State := runLoanOps s0 ops0

/-- Book 1 as it stands in `sF`: returned, hence available again. -/
def bookF : Book := ⟨1, "Dune", none, none, none, true⟩

/-- A database with book 1 out on the open loan `loan1` and the late-fee
setting set to `rate`. -/
def mkLoanState (rate : String) : State where
  books := [⟨1, "Dune", none, none, none, false⟩]
  members := [⟨1, "Ada", none⟩]
  loans := [loan1]
  users := []
  settings := [("late_fee_per_day", rate)]
  audit := []
  nextBookId := 2
  nextMemberId := 2
  nextLoanId := 2
  nextUserId := 1
  nextAuditId := 1

/-- The loan-holding database with no settings rows at all. -/
def noRateState : State := { mkLoanState "0.50" with settings := [] }

/-- A loan that was already returned on day 105 with a fee of 5/2. -/
def loanReturned : Loan := ⟨1, 1, 1, t0, dueT, some ⟨105, 0⟩, mkRat 5 2⟩

/-- A database whose only loan is already returned. -/
def sReturned : State := { mkLoanState "0.50" with loans := [loanReturned] }

/-- A database with a single user `alice` whose password is `pw`. -/
def sU : State where
  books := []
  members := []
  loans := []
  users := [⟨1, "alice", hashpw "pw" 7, "admin"⟩]
  settings := []
  audit := []
  nextBookId := 1
  nextMemberId := 1
  nextLoanId := 1
  nextUserId := 2
  nextAuditId := 1

/-! Helper lemmas. -/

theorem eq_singleton_of_mem_of_length_le_one {α : Type} {l : List α} {x : α}
    (hm : x ∈ l) (hl : l.length ≤ 1) : l = [x] := by
  cases l with
  | nil => cases hm
  | cons a t =>
    cases t with
    | nil =>
      have hx : x = a := by simpa using hm
      simp [hx]
    | cons b t2 => simp at hl

/-- Closing one loan (the `UPDATE` of `return_book`) removes exactly the loans
with the updated id from any open-loan query. -/
theorem openLoans_after_close (loans : List Loan) (lid : Nat) (now : DateTime)
    (fee : ℚ) (x : Nat) :
    (loans.map (fun l =>
        if l.id == lid then { l with date_returned := some now, late_fee := fee }
        else l)).filter (fun l => l.book_id == x && l.date_returned.isNone) =
    (loans.filter (fun l => l.book_id == x && l.date_returned.isNone)).filter
      (fun l => !(l.id == lid)) := by
  rw [List.filter_map, List.filter_filter]
  have h1 : loans.filter
        ((fun l => l.book_id == x && l.date_returned.isNone) ∘ fun l =>
          if l.id == lid then { l with date_returned := some now, late_fee := fee }
          else l) =
      loans.filter (fun l => !(l.id == lid) &&
        (l.book_id == x && l.date_returned.isNone)) := by
    apply List.filter_congr
    intro l _
    by_cases h : l.id = lid <;> simp [Function.comp, h]
  rw [h1]
  refine (List.map_congr_left ?_).trans (List.map_id _)
  intro l hl
  have hq := List.of_mem_filter hl
  have hne : (l.id == lid) = false := by
    cases h : (l.id == lid)
    · rfl
    · rw [h] at hq; simp at hq
  simp [hne]

/-- Updating book rows in place does not change the list of ids. -/
theorem books_update_id_map (books : List Book) (g : Book → Book)
    (hg : ∀ b, (g b).id = b.id) :
    (books.map g).map Book.id = books.map Book.id := by
  rw [List.map_map]
  exact List.map_congr_left (fun b _ => hg b)

/-- Updating loan rows in place does not change the list of ids. -/
theorem loans_update_id_map (loans : List Loan) (g : Loan → Loan)
    (hg : ∀ l, (g l).id = l.id) :
    (loans.map g).map Loan.id = loans.map Loan.id := by
  rw [List.map_map]
  exact List.map_congr_left (fun l _ => hg l)

/-- `borrow_book` preserves schema well-formedness and the availability
invariant. -/
theorem borrow_preserves (s : State) (bid mid : Nat) (d : Int) (now : DateTime)
    (a : Option String) (hwf : WF s) (hinv : BookInvariant s) :
    WF (borrow_book s bid mid d now a).2 ∧
      BookInvariant (borrow_book s bid mid d now a).2 := by
  obtain ⟨hbN, hlN, hlt⟩ := hwf
  cases hfind : s.books.find? (fun b => b.id == bid) with
  | none =>
    simp only [borrow_book, hfind]
    exact ⟨⟨hbN, hlN, hlt⟩, hinv⟩
  | some b =>
    have hbmem : b ∈ s.books := List.mem_of_find?_eq_some hfind
    have hbid : b.id = bid := by simpa using List.find?_some hfind
    by_cases hav : b.available = false
    · simp only [borrow_book, hfind]
      rw [if_pos hav]
      exact ⟨⟨hbN, hlN, hlt⟩, hinv⟩
    · have havT : b.available = true := by
        cases h : b.available
        · exact absurd h hav
        · rfl
      simp only [borrow_book, hfind, log_audit]
      rw [if_neg hav]
      dsimp only
      constructor
      · refine ⟨?_, ?_, ?_⟩
        · rw [books_update_id_map _ _
            (fun bk => by by_cases h : bk.id = bid <;> simp [h])]
          exact hbN
        · rw [List.map_append]
          refine List.Nodup.append hlN (by simp) ?_
          intro i hi hi2
          simp only [List.map_cons, List.map_nil, List.mem_singleton] at hi2
          obtain ⟨l, hlmem2, hlid2⟩ := List.mem_map.mp hi
          have := hlt l hlmem2
          omega
        · intro l hl
          show l.id < s.nextLoanId + 1
          rcases List.mem_append.mp hl with h | h
          · have := hlt l h
            omega
          · simp only [List.mem_singleton] at h
            simp [h]
      · intro b' hb'
        obtain ⟨b0, hb0, rfl⟩ := List.mem_map.mp hb'
        simp only [openLoansFor]
        by_cases hcase : b0.id = bid
        · have hb0b : b0 = b := by
            apply List.inj_on_of_nodup_map hbN hb0 hbmem
            rw [hcase, hbid]
          have hopenold :
              s.loans.filter (fun l => l.book_id == b0.id && l.date_returned.isNone)
                = [] := by
            have h2 := (hinv b0 hb0).1
            rw [hb0b, havT] at h2
            have h3 : ¬ openLoansFor s b.id ≠ [] := fun hne =>
              absurd (h2.mpr hne) (by simp)
            rw [not_not] at h3
            rw [← hb0b] at h3
            simpa [openLoansFor] using h3
          simp only [hcase]
          simp only [beq_self_eq_true, if_true]
          rw [List.filter_append]
          rw [hcase] at hopenold
          rw [hopenold]
          simp
        · have hcaseb : (b0.id == bid) = false := by
            simp [hcase]
          simp only [hcaseb, Bool.false_eq_true, if_false]
          have hinv0 := hinv b0 hb0
          simp only [openLoansFor] at hinv0
          rw [List.filter_append]
          have hnew : List.filter
              (fun (l : Loan) => l.book_id == b0.id && l.date_returned.isNone)
              [⟨s.nextLoanId, bid, mid, now, now.addDays d, none, 0⟩] = [] := by
            simp [Ne.symm hcase]
          rw [hnew, List.append_nil]
          exact hinv0

/-- `return_book` preserves schema well-formedness and the availability
invariant. -/
theorem return_preserves (s : State) (lid : Nat) (now : DateTime)
    (a : Option String) (hwf : WF s) (hinv : BookInvariant s) :
    WF (return_book s lid now a).2 ∧
      BookInvariant (return_book s lid now a).2 := by
  obtain ⟨hbN, hlN, hlt⟩ := hwf
  cases hfind : s.loans.find? (fun l => l.id == lid) with
  | none =>
    simp only [return_book, hfind]
    exact ⟨⟨hbN, hlN, hlt⟩, hinv⟩
  | some loan =>
    have hlmem : loan ∈ s.loans := List.mem_of_find?_eq_some hfind
    have hlid : loan.id = lid := by simpa using List.find?_some hfind
    cases hret : loan.date_returned with
    | some dr =>
      simp only [return_book, hfind, hret, Option.isSome_some, if_true]
      exact ⟨⟨hbN, hlN, hlt⟩, hinv⟩
    | none =>
      simp only [return_book, hfind, hret, Option.isSome_none, Bool.false_eq_true,
        if_false, log_audit]
      constructor
      · refine ⟨?_, ?_, ?_⟩
        · rw [books_update_id_map _ _
            (fun bk => by by_cases h : bk.id = loan.book_id <;> simp [h])]
          exact hbN
        · rw [loans_update_id_map _ _
            (fun l => by by_cases h : l.id = lid <;> simp [h])]
          exact hlN
        · intro l hl
          obtain ⟨l0, hl0, rfl⟩ := List.mem_map.mp hl
          have := hlt l0 hl0
          by_cases h : l0.id = lid <;> simp [h] <;> omega
      · intro b' hb'
        obtain ⟨b0, hb0, rfl⟩ := List.mem_map.mp hb'
        have hinv0 := hinv b0 hb0
        simp only [openLoansFor] at hinv0 ⊢
        by_cases hcase : b0.id = loan.book_id
        · simp only [hcase, beq_self_eq_true, if_true]
          have hsing :
              s.loans.filter (fun l => l.book_id == b0.id && l.date_returned.isNone)
                = [loan] := by
            apply eq_singleton_of_mem_of_length_le_one _ hinv0.2
            rw [List.mem_filter]
            exact ⟨hlmem, by simp [hcase, hret]⟩
          rw [hcase] at hsing
          rw [openLoans_after_close, hsing]
          simp [hlid]
        · have hcaseb : (b0.id == loan.book_id) = false := by
            simp [hcase]
          simp only [hcaseb, Bool.false_eq_true, if_false]
          rw [openLoans_after_close]
          have hself : (s.loans.filter
              (fun l => l.book_id == b0.id && l.date_returned.isNone)).filter
                (fun l => !(l.id == lid)) =
              s.loans.filter
                (fun l => l.book_id == b0.id && l.date_returned.isNone) := by
            rw [List.filter_eq_self]
            intro l hl
            have hlmem2 : l ∈ s.loans := (List.mem_filter.mp hl).1
            have hprop := (List.mem_filter.mp hl).2
            have hbk : l.book_id = b0.id := by
              simp only [Bool.and_eq_true, beq_iff_eq] at hprop
              exact hprop.1
            by_cases hid : l.id = lid
            · have hll : l = loan := by
                apply List.inj_on_of_nodup_map hlN hlmem2 hlmem
                rw [hid, hlid]
              subst hll
              exact absurd hbk (fun h => hcase h.symm)
            · simp [hid]
          rw [hself]
          exact hinv0

/-- Every sequence of borrow/return operations preserves well-formedness and
the availability invariant. -/
theorem runLoanOps_preserves (ops : List LoanOp) (s : State)
    (hwf : WF s) (hinv : BookInvariant s) :
    WF (runLoanOps s ops) ∧ BookInvariant (runLoanOps s ops) := by
  induction ops generalizing s with
  | nil => exact ⟨hwf, hinv⟩
  | cons op rest ih =>
    have hstep : WF (applyLoanOp s op) ∧ BookInvariant (applyLoanOp s op) := by
      cases op with
      | borrow b m d now a => exact borrow_preserves s b m d now a hwf hinv
      | ret l now a => exact return_preserves s l now a hwf hinv
    exact ih (applyLoanOp s op) hstep.1 hstep.2

/-- C1: starting from any schema-well-formed state satisfying the
availability invariant — a book is unavailable iff an open loan references
it, and at most one open loan references any book — every sequence of
`borrow_book`/`return_book` operations leaves the invariant holding. -/
theorem borrow_return_invariant (s : State) (ops : List LoanOp)
    (hwf : WF s) (hinv : BookInvariant s) :
    BookInvariant (runLoanOps s ops) :=
  (runLoanOps_preserves ops s hwf hinv).2

/-- The invariant theorem exercised on a concrete run: borrow book 1, then
return the loan; the invariant facts hold of book 1 in the final state. -/
theorem borrow_return_invariant_witness :
    WF s0 ∧ BookInvariant s0 ∧
      ((bookF.available = false ↔ openLoansFor sF bookF.id ≠ []) ∧
        (openLoansFor sF bookF.id).length ≤ 1) :=
  ⟨by decide, by decide,
    borrow_return_invariant s0 ops0 (by decide) (by decide) bookF (by decide)⟩

/-- The fee expression computed by `return_book` equals the spec's
`max 0 lateDays * rate` form. -/
theorem late_fee_ite_eq (d : Int) (r : ℚ) :
    (if d > 0 then (d : ℚ) * r else 0) = ((max 0 d : Int) : ℚ) * r := by
  rcases le_or_lt d 0 with h | h
  · rw [if_neg (by omega), max_eq_left h]
    simp
  · rw [if_pos h, max_eq_right (le_of_lt h)]

/-- C2: for an open loan, `return_book` stores and surfaces
`late_fee = max 0 ((return date) - (due date)).days * rate`, where the rate
is the `late_fee_per_day` value read from Settings at return time. -/
theorem return_late_fee_formula (s : State) (loan_id : Nat) (now : DateTime)
    (actor : Option String) (loan : Loan) (rate : ℚ)
    (hfind : s.loans.find? (fun l => l.id == loan_id) = some loan)
    (hopen : loan.date_returned = none)
    (hrate : (get_setting s "late_fee_per_day").bind parseFloat = some rate) :
    (return_book s loan_id now actor).1.late_fee =
      some (((max 0 (dateDiffDays now loan.date_due) : Int) : ℚ) * rate) ∧
    ∀ l ∈ (return_book s loan_id now actor).2.loans,
      l.id = loan_id →
        l.late_fee = ((max 0 (dateDiffDays now loan.date_due) : Int) : ℚ) * rate := by
  have hrate2 : lateFeeRate s = rate := by
    simp [lateFeeRate, hrate]
  simp only [return_book, hfind, hopen, Option.isSome_none, Bool.false_eq_true,
    if_false]
  constructor
  · rw [hrate2, late_fee_ite_eq]
  · intro l hl hid
    obtain ⟨l0, hl0, rfl⟩ := List.mem_map.mp hl
    by_cases h : l0.id = loan_id
    · simp only [h, beq_self_eq_true, if_true]
      rw [hrate2, late_fee_ite_eq]
    · have hb : (l0.id == loan_id) = false := by simp [h]
      rw [hb] at hid
      simp at hid
      exact absurd hid h

/-- The late-fee algorithm exercised: returning during the due day itself
gives fee 0, one calendar day late at rate 0.50 gives 0.50, and ten days
late at rate 0.75 gives 7.50. -/
theorem return_late_fee_formula_witness :
    (mkLoanState "0.50").loans.find? (fun l => l.id == 1) = some loan1 ∧
    loan1.date_returned = none ∧
    (get_setting (mkLoanState "0.50") "late_fee_per_day").bind parseFloat =
      some (mkRat 1 2) ∧
    (get_setting (mkLoanState "0.75") "late_fee_per_day").bind parseFloat =
      some (mkRat 3 4) ∧
    (return_book (mkLoanState "0.50") 1 ⟨100, 50000⟩ none).1.late_fee = some 0 ∧
    (return_book (mkLoanState "0.50") 1 ⟨101, 10⟩ none).1.late_fee = some (1 / 2) ∧
    (return_book (mkLoanState "0.75") 1 ⟨110, 0⟩ none).1.late_fee = some (15 / 2) := by
  refine ⟨by decide, by decide, by decide, by decide, ?_, ?_, ?_⟩
  · have h := (return_late_fee_formula (mkLoanState "0.50") 1 ⟨100, 50000⟩ none
      loan1 (mkRat 1 2) (by decide) (by decide) (by decide)).1
    rw [h]
    norm_num [loan1, dueT, dateDiffDays, Rat.mkRat_eq_div]
  · have h := (return_late_fee_formula (mkLoanState "0.50") 1 ⟨101, 10⟩ none
      loan1 (mkRat 1 2) (by decide) (by decide) (by decide)).1
    rw [h]
    norm_num [loan1, dueT, dateDiffDays, Rat.mkRat_eq_div]
  · have h := (return_late_fee_formula (mkLoanState "0.75") 1 ⟨110, 0⟩ none
      loan1 (mkRat 3 4) (by decide) (by decide) (by decide)).1
    rw [h]
    norm_num [loan1, dueT, dateDiffDays, Rat.mkRat_eq_div]

/-- C10: when the stored `late_fee_per_day` setting is absent or unparsable,
`return_book` raises no error: it succeeds and computes the fee with the
hard-coded 0.50-per-day fallback. -/
theorem return_fallback_rate (s : State) (loan_id : Nat) (now : DateTime)
    (actor : Option String) (loan : Loan)
    (hfind : s.loans.find? (fun l => l.id == loan_id) = some loan)
    (hopen : loan.date_returned = none)
    (hbad : (get_setting s "late_fee_per_day").bind parseFloat = none) :
    (return_book s loan_id now actor).1.success = true ∧
    (return_book s loan_id now actor).1.late_fee =
      some (((max 0 (dateDiffDays now loan.date_due) : Int) : ℚ) * (1 / 2)) := by
  have hrate2 : lateFeeRate s = 1 / 2 := by
    simp [lateFeeRate, hbad]
  simp only [return_book, hfind, hopen, Option.isSome_none, Bool.false_eq_true,
    if_false]
  constructor
  · trivial
  · rw [hrate2, late_fee_ite_eq]

/-- The fallback exercised both on a database with no settings rows and on an
unparsable stored rate. -/
theorem return_fallback_rate_witness :
    (get_setting noRateState "late_fee_per_day").bind parseFloat = none ∧
    (get_setting (mkLoanState "abc") "late_fee_per_day").bind parseFloat = none ∧
    (return_book noRateState 1 t1 none).1.success = true ∧
    (return_book noRateState 1 t1 none).1.late_fee = some 5 ∧
    (return_book (mkLoanState "abc") 1 t1 none).1.success = true := by
  refine ⟨by decide, by decide, ?_, ?_, ?_⟩
  · exact (return_fallback_rate noRateState 1 t1 none loan1 (by decide) (by decide)
      (by decide)).1
  · have h := (return_fallback_rate noRateState 1 t1 none loan1 (by decide)
      (by decide) (by decide)).2
    rw [h]
    norm_num [loan1, dueT, t1, dateDiffDays]
  · exact (return_fallback_rate (mkLoanState "abc") 1 t1 none loan1 (by decide)
      (by decide) (by decide)).1

/-- C4: returning a loan whose `date_returned` is already set fails with the
already-returned message and leaves the whole database unchanged. -/
theorem return_already_returned (s : State) (loan_id : Nat) (now : DateTime)
    (actor : Option String) (loan : Loan)
    (hfind : s.loans.find? (fun l => l.id == loan_id) = some loan)
    (hret : loan.date_returned.isSome = true) :
    return_book s loan_id now actor =
      ({ success := false, message := "Already returned.", late_fee := none }, s) := by
  simp only [return_book, hfind, hret, if_true]

/-- The double-return rejection exercised on a concrete returned loan. -/
theorem return_already_returned_witness :
    sReturned.loans.find? (fun l => l.id == 1) = some loanReturned ∧
    loanReturned.date_returned.isSome = true ∧
    return_book sReturned 1 t1 (some "staff1") =
      ({ success := false, message := "Already returned.", late_fee := none },
        sReturned) :=
  ⟨by decide, by decide,
    return_already_returned sReturned 1 t1 (some "staff1") loanReturned
      (by decide) (by decide)⟩

/-- C5: borrowing fails with the not-found message for a missing book id and
with the unavailable message for a book whose `available` flag is false —
whatever the member argument — and in both cases the database is unchanged
(no loan inserted, no book modified). -/
theorem borrow_failure_cases (s : State) (book_id member_id : Nat)
    (days_due : Int) (now : DateTime) (actor : Option String) :
    (s.books.find? (fun b => b.id == book_id) = none →
      borrow_book s book_id member_id days_due now actor =
        ({ success := false, message := "Book not found." }, s)) ∧
    (∀ b, s.books.find? (fun b2 => b2.id == book_id) = some b →
      b.available = false →
      borrow_book s book_id member_id days_due now actor =
        ({ success := false, message := "Book currently not available." }, s)) := by
  constructor
  · intro h
    simp only [borrow_book, h]
  · intro b hfind hav
    simp only [borrow_book, hfind]
    rw [if_pos hav]

/-- The borrow failure cases exercised: book 2 does not exist in `s0`, and
book 1 of the loan-holding database is unavailable even for another member. -/
theorem borrow_failure_cases_witness :
    s0.books.find? (fun b => b.id == 2) = none ∧
    (mkLoanState "0.50").books.find? (fun b => b.id == 1) =
      some ⟨1, "Dune", none, none, none, false⟩ ∧
    borrow_book s0 2 1 14 t0 none =
      ({ success := false, message := "Book not found." }, s0) ∧
    borrow_book (mkLoanState "0.50") 1 5 14 t0 none =
      ({ success := false, message := "Book currently not available." },
        mkLoanState "0.50") :=
  ⟨by decide, by decide,
    (borrow_failure_cases s0 2 1 14 t0 none).1 (by decide),
    (borrow_failure_cases (mkLoanState "0.50") 1 5 14 t0 none).2
      ⟨1, "Dune", none, none, none, false⟩ (by decide) (by decide)⟩

/-- C6: `verify_user` answers with the boolean `false` — the same return
shape, with no distinguishing error — both when the username is absent from
the users table and when it is present but the password fails the
stored-hash check. -/
theorem verify_user_uniform_false (s : State) (username pw : String) :
    (s.users.find? (fun u => u.username == username) = none →
      verify_user s username pw = false) ∧
    (∀ u, s.users.find? (fun u2 => u2.username == username) = some u →
      checkpw pw u.password_hash = false →
      verify_user s username pw = false) := by
  constructor
  · intro h
    simp [verify_user, h]
  · intro u hfind hchk
    simp [verify_user, hfind, hchk]

/-- The uniform-failure contract exercised: an unknown username and a wrong
password yield the same boolean `false`. -/
theorem verify_user_uniform_false_witness :
    sU.users.find? (fun u => u.username == "nobody") = none ∧
    sU.users.find? (fun u => u.username == "alice") =
      some ⟨1, "alice", hashpw "pw" 7, "admin"⟩ ∧
    checkpw "wrong" (hashpw "pw" 7) = false ∧
    verify_user sU "nobody" "x" = false ∧
    verify_user sU "alice" "wrong" = false :=
  ⟨by decide, by decide, by decide,
    (verify_user_uniform_false sU "nobody" "x").1 (by decide),
    (verify_user_uniform_false sU "alice" "wrong").2
      ⟨1, "alice", hashpw "pw" 7, "admin"⟩ (by decide) (by decide)⟩

/-- C7: with a wrong current password `change_user_password` reports
`success = false` and leaves the whole database unchanged; with the correct
one it replaces that user's stored hash by a hash of the new password,
touches no other table, and reports success. -/
theorem change_password_behavior (s : State) (username oldp newp : String)
    (salt : Nat) (now : DateTime) :
    (verify_user s username oldp = false →
      change_user_password s username oldp newp salt now =
        ({ success := false, message := "Current password incorrect." }, s)) ∧
    (verify_user s username oldp = true →
      (change_user_password s username oldp newp salt now).1 =
        { success := true, message := "Password changed." } ∧
      (change_user_password s username oldp newp salt now).2.users =
        s.users.map (fun u =>
          if u.username == username then { u with password_hash := hashpw newp salt }
          else u) ∧
      (change_user_password s username oldp newp salt now).2.books = s.books ∧
      (change_user_password s username oldp newp salt now).2.loans = s.loans ∧
      (change_user_password s username oldp newp salt now).2.members = s.members ∧
      (change_user_password s username oldp newp salt now).2.settings =
        s.settings) := by
  constructor
  · intro h
    simp only [change_user_password, h, Bool.not_false, if_true]
  · intro h
    simp only [change_user_password, h, Bool.not_true, Bool.false_eq_true,
      if_false, log_audit]
    simp

/-- The password-change contract exercised for `alice`, with a wrong and
with the correct current password. -/
theorem change_password_behavior_witness :
    verify_user sU "alice" "bad" = false ∧
    verify_user sU "alice" "pw" = true ∧
    change_user_password sU "alice" "bad" "x" 9 t0 =
      ({ success := false, message := "Current password incorrect." }, sU) ∧
    (change_user_password sU "alice" "pw" "x" 9 t0).1 =
      { success := true, message := "Password changed." } ∧
    (change_user_password sU "alice" "pw" "x" 9 t0).2.users =
      sU.users.map (fun u =>
        if u.username == "alice" then { u with password_hash := hashpw "x" 9 }
        else u) :=
  ⟨by decide, by decide,
    (change_password_behavior sU "alice" "bad" "x" 9 t0).1 (by decide),
    ((change_password_behavior sU "alice" "pw" "x" 9 t0).2 (by decide)).1,
    ((change_password_behavior sU "alice" "pw" "x" 9 t0).2 (by decide)).2.1⟩

/-- C8: deleting a book with an open loan fails with the structured error
and changes nothing; deleting a book with no loans or only returned loans
succeeds and removes exactly that book row. -/
theorem delete_book_behavior (s : State) (book_id : Nat) (actor : Option String)
    (now : DateTime) :
    (openLoansFor s book_id ≠ [] →
      delete_book s book_id actor now =
        ({ success := false,
           message := "Cannot delete: book has active (not returned) loans." },
          s)) ∧
    (openLoansFor s book_id = [] →
      (delete_book s book_id actor now).1.success = true ∧
      (delete_book s book_id actor now).2.books =
        s.books.filter (fun b => !(b.id == book_id))) := by
  constructor
  · intro h
    have hlen : (openLoansFor s book_id).length > 0 := List.length_pos.mpr h
    simp only [delete_book]
    rw [if_pos hlen]
  · intro h
    have hlen : ¬ (openLoansFor s book_id).length > 0 := by
      simp [h]
    simp only [delete_book, log_audit]
    rw [if_neg hlen]
    exact ⟨rfl, rfl⟩

/-- The deletion contract exercised: book 1 with an open loan is kept; book 1
of the loan-free database is removed. -/
theorem delete_book_behavior_witness :
    openLoansFor (mkLoanState "0.50") 1 ≠ [] ∧
    openLoansFor s0 1 = [] ∧
    delete_book (mkLoanState "0.50") 1 (some "adm") t0 =
      ({ success := false,
         message := "Cannot delete: book has active (not returned) loans." },
        mkLoanState "0.50") ∧
    (delete_book s0 1 (some "adm") t0).1.success = true ∧
    (delete_book s0 1 (some "adm") t0).2.books =
      s0.books.filter (fun b => !(b.id == 1)) :=
  ⟨by decide, by decide,
    (delete_book_behavior (mkLoanState "0.50") 1 (some "adm") t0).1 (by decide),
    ((delete_book_behavior s0 1 (some "adm") t0).2 (by decide)).1,
    ((delete_book_behavior s0 1 (some "adm") t0).2 (by decide)).2⟩

/-- C9: `admin_reset_password` on a target username that matches no user
still reports success — its `UPDATE` touches zero rows, leaving the users
table unchanged — and appends an audit row asserting the reset. -/
theorem admin_reset_missing_target (s : State) (adm tgt npw : String)
    (salt : Nat) (now : DateTime)
    (hmiss : ∀ u ∈ s.users, u.username ≠ tgt) :
    (admin_reset_password s adm tgt npw salt now).1 =
      { success := true, message := "Password for " ++ tgt ++ " reset." } ∧
    (admin_reset_password s adm tgt npw salt now).2.users = s.users ∧
    (admin_reset_password s adm tgt npw salt now).2.audit.map
        (fun e => (e.actor, e.action)) =
      s.audit.map (fun e => (e.actor, e.action)) ++
        [(adm, "admin_reset_password")] := by
  refine ⟨rfl, ?_, ?_⟩
  · simp only [admin_reset_password, log_audit]
    refine (List.map_congr_left ?_).trans (List.map_id _)
    intro u hu
    have hne := hmiss u hu
    simp [hne]
  · simp only [admin_reset_password, log_audit]
    simp

/-- The missing-target reset exercised: `ghost` is nobody, yet the call
reports success and logs the reset. -/
theorem admin_reset_missing_target_witness :
    (∀ u ∈ sU.users, u.username ≠ "ghost") ∧
    (admin_reset_password sU "alice" "ghost" "npw" 9 t0).1 =
      { success := true, message := "Password for " ++ "ghost" ++ " reset." } ∧
    (admin_reset_password sU "alice" "ghost" "npw" 9 t0).2.users = sU.users :=
  ⟨by decide,
    (admin_reset_missing_target sU "alice" "ghost" "npw" 9 t0 (by decide)).1,
    (admin_reset_missing_target sU "alice" "ghost" "npw" 9 t0 (by decide)).2.1⟩

/-- C3 as stated is false on the code: a `change_user_password` call with a
wrong current password appends no audit row at all, and `create_user` —
which has no acting-caller parameter — records the created username (`bob`
here, whoever invoked it) as the audit actor. -/
theorem audit_per_call_counterexample :
    (change_user_password sU "alice" "bad" "x" 9 t0).2.audit.length =
      sU.audit.length ∧
    (create_user sU "bob" "pw2" "staff" 9 t0).map
      (fun s => s.audit.map AuditEntry.actor) = some ["bob"] := by
  constructor
  · decide
  · decide

/-- C3 amended: every successful call to the six mutating operations appends
exactly one audit row and every failing call appends none.  The actor of the
appended row is the supplied actor argument (with `"unknown"` substituted for
a missing or empty one) for `borrow_book`, `return_book` and `set_setting`,
the acting username for `change_user_password` and `admin_reset_password`,
and the created username for `create_user`.  The three fallible
result-returning operations hand back the database with its audit log
unchanged on failure, and a duplicate-username `create_user` raises
(modelled `none`) before any audit write, producing no state at all. -/
theorem audit_row_accounting :
    (∀ (s : State) (bid mid : Nat) (d : Int) (now : DateTime) (a : Option String),
      ((borrow_book s bid mid d now a).1.success = true →
        (borrow_book s bid mid d now a).2.audit.map AuditEntry.actor =
          s.audit.map AuditEntry.actor ++ [orUnknown a]) ∧
      ((borrow_book s bid mid d now a).1.success = false →
        (borrow_book s bid mid d now a).2.audit = s.audit)) ∧
    (∀ (s : State) (lid : Nat) (now : DateTime) (a : Option String),
      ((return_book s lid now a).1.success = true →
        (return_book s lid now a).2.audit.map AuditEntry.actor =
          s.audit.map AuditEntry.actor ++ [orUnknown a]) ∧
      ((return_book s lid now a).1.success = false →
        (return_book s lid now a).2.audit = s.audit)) ∧
    (∀ (s : State) (u oldp np : String) (salt : Nat) (now : DateTime),
      ((change_user_password s u oldp np salt now).1.success = true →
        (change_user_password s u oldp np salt now).2.audit.map AuditEntry.actor =
          s.audit.map AuditEntry.actor ++ [u]) ∧
      ((change_user_password s u oldp np salt now).1.success = false →
        (change_user_password s u oldp np salt now).2.audit = s.audit)) ∧
    (∀ (s : State) (adm tgt np : String) (salt : Nat) (now : DateTime),
      (admin_reset_password s adm tgt np salt now).2.audit.map AuditEntry.actor =
        s.audit.map AuditEntry.actor ++ [adm]) ∧
    (∀ (s : State) (u pw role : String) (salt : Nat) (now : DateTime),
      (create_user s u pw role salt now).map
          (fun s2 => s2.audit.map AuditEntry.actor) =
        if s.users.any (fun x => x.username == u) then none
        else some (s.audit.map AuditEntry.actor ++ [u])) ∧
    (∀ (s : State) (k v : String) (a : Option String) (now : DateTime),
      (set_setting s k v a now).audit.map AuditEntry.actor =
        s.audit.map AuditEntry.actor ++ [orUnknown a]) := by
  refine ⟨?_, ?_, ?_, ?_, ?_, ?_⟩
  · intro s bid mid d now a
    cases hfind : s.books.find? (fun b => b.id == bid) with
    | none =>
      refine ⟨fun h => ?_, fun _ => ?_⟩
      · simp [borrow_book, hfind] at h
      · simp [borrow_book, hfind]
    | some b =>
      by_cases hav : b.available = false
      · refine ⟨fun h => ?_, fun _ => ?_⟩
        · simp only [borrow_book, hfind] at h
          rw [if_pos hav] at h
          simp at h
        · simp only [borrow_book, hfind]
          rw [if_pos hav]
      · refine ⟨fun _ => ?_, fun h => ?_⟩
        · simp only [borrow_book, hfind, log_audit]
          rw [if_neg hav]
          simp
        · simp only [borrow_book, hfind] at h
          rw [if_neg hav] at h
          simp at h
  · intro s lid now a
    cases hfind : s.loans.find? (fun l => l.id == lid) with
    | none =>
      refine ⟨fun h => ?_, fun _ => ?_⟩
      · simp [return_book, hfind] at h
      · simp [return_book, hfind]
    | some loan =>
      by_cases hret : loan.date_returned.isSome = true
      · refine ⟨fun h => ?_, fun _ => ?_⟩
        · simp only [return_book, hfind] at h
          rw [if_pos hret] at h
          simp at h
        · simp only [return_book, hfind]
          rw [if_pos hret]
      · refine ⟨fun _ => ?_, fun h => ?_⟩
        · simp only [return_book, hfind, log_audit]
          rw [if_neg hret]
          simp
        · simp only [return_book, hfind] at h
          rw [if_neg hret] at h
          simp at h
  · intro s u oldp np salt now
    by_cases hv : verify_user s u oldp = true
    · refine ⟨fun _ => ?_, fun h => ?_⟩
      · simp only [change_user_password, hv, Bool.not_true, Bool.false_eq_true,
          if_false, log_audit]
        simp
      · simp only [change_user_password, hv, Bool.not_true, Bool.false_eq_true,
          if_false] at h
        simp at h
    · have hvf : verify_user s u oldp = false := by
        cases h2 : verify_user s u oldp
        · rfl
        · exact absurd h2 hv
      refine ⟨fun h => ?_, fun _ => ?_⟩
      · simp only [change_user_password, hvf, Bool.not_false, if_true] at h
        simp at h
      · simp [change_user_password, hvf]
  · intro s adm tgt np salt now
    simp only [admin_reset_password, log_audit]
    simp
  · intro s u pw role salt now
    by_cases hdup : s.users.any (fun x => x.username == u) = true
    · simp [create_user, hdup]
    · simp [create_user, hdup, log_audit]
  · intro s k v a now
    simp only [set_setting, log_audit]
    simp

/-- The audit bookkeeping exercised on concrete databases: one successful and
one failing call of each fallible operation, plus the always-succeeding
ones. -/
theorem audit_row_accounting_witness :
    (borrow_book s0 1 1 14 t0 (some "staff1")).1.success = true ∧
    (borrow_book s0 1 1 14 t0 (some "staff1")).2.audit.map AuditEntry.actor =
      s0.audit.map AuditEntry.actor ++ [orUnknown (some "staff1")] ∧
    (borrow_book s0 2 1 14 t0 (some "staff1")).1.success = false ∧
    (borrow_book s0 2 1 14 t0 (some "staff1")).2.audit = s0.audit ∧
    (return_book (mkLoanState "0.50") 1 t1 (some "staff1")).1.success = true ∧
    (return_book (mkLoanState "0.50") 1 t1 (some "staff1")).2.audit.map
        AuditEntry.actor =
      (mkLoanState "0.50").audit.map AuditEntry.actor ++
        [orUnknown (some "staff1")] ∧
    (return_book sReturned 1 t1 none).1.success = false ∧
    (return_book sReturned 1 t1 none).2.audit = sReturned.audit ∧
    (change_user_password sU "alice" "pw" "x" 9 t0).1.success = true ∧
    (change_user_password sU "alice" "pw" "x" 9 t0).2.audit.map
        AuditEntry.actor = sU.audit.map AuditEntry.actor ++ ["alice"] ∧
    (change_user_password sU "alice" "bad" "x" 9 t0).1.success = false ∧
    (change_user_password sU "alice" "bad" "x" 9 t0).2.audit = sU.audit ∧
    (admin_reset_password sU "alice" "bob" "x" 9 t0).2.audit.map
        AuditEntry.actor = sU.audit.map AuditEntry.actor ++ ["alice"] ∧
    (create_user sU "bob" "pw2" "staff" 9 t0).map
        (fun s2 => s2.audit.map AuditEntry.actor) =
      (if sU.users.any (fun x => x.username == "bob") then none
       else some (sU.audit.map AuditEntry.actor ++ ["bob"])) ∧
    (create_user sU "alice" "pw2" "staff" 9 t0).map
        (fun s2 => s2.audit.map AuditEntry.actor) = none ∧
    (set_setting s0 "late_fee_per_day" "0.75" (some "alice") t0).audit.map
        AuditEntry.actor = s0.audit.map AuditEntry.actor ++
      [orUnknown (some "alice")] :=
  ⟨by decide,
    (audit_row_accounting.1 s0 1 1 14 t0 (some "staff1")).1 (by decide),
    by decide,
    (audit_row_accounting.1 s0 2 1 14 t0 (some "staff1")).2 (by decide),
    by decide,
    (audit_row_accounting.2.1 (mkLoanState "0.50") 1 t1 (some "staff1")).1
      (by decide),
    by decide,
    (audit_row_accounting.2.1 sReturned 1 t1 none).2 (by decide),
    by decide,
    (audit_row_accounting.2.2.1 sU "alice" "pw" "x" 9 t0).1 (by decide),
    by decide,
    (audit_row_accounting.2.2.1 sU "alice" "bad" "x" 9 t0).2 (by decide),
    audit_row_accounting.2.2.2.1 sU "alice" "bob" "x" 9 t0,
    audit_row_accounting.2.2.2.2.1 sU "bob" "pw2" "staff" 9 t0,
    by decide,
    audit_row_accounting.2.2.2.2.2 s0 "late_fee_per_day" "0.75"
      (some "alice") t0⟩

end Evanjo
